import Mathlib

/-
  Verification of the Tensor I/O Helper (IOTensor) of
  quic-ashwjadh/ai-engine-direct-helper.

  The repository sources are two header files declaring class
  qnn::tools::iotensor::IOTensor: a refactored header (the unnamed file)
  whose file-based populateInputTensors returns a
  (StatusCode, filesConsumed, batchSize) triple, and
  src/libQNNHelper/src/Utils/IOTensor.hpp whose class carries two scalar
  members m_batchSize and m_numFilesPopulated, initialised by the inline
  constructor IOTensor() : m_batchSize(1), m_numFilesPopulated(0).

  The member-function bodies (IOTensor.cpp) are not part of the sources,
  so the behavioural operations below are modelled from the spec, as the
  doc comments state; enums, signatures, the member-field list and the
  constructor are embedded directly from the headers.

  Machine integers (size_t, uint32_t) are modelled as Nat; byte buffers as
  List Nat; raw pointers as Option (null = none); the float computation of
  dequantization as exact rational arithmetic.
-/

namespace qnn
namespace tools
namespace iotensor

/-- StatusCode from the headers, line 28: enum class StatusCode. -/
inductive StatusCode where
  | SUCCESS
  | FAILURE
deriving DecidableEq

/-- OutputDataType from the headers, line 29. -/
inductive OutputDataType where
  | FLOAT_ONLY
  | NATIVE_ONLY
  | FLOAT_AND_NATIVE
  | INVALID
deriving DecidableEq

/-- InputDataType from the headers, line 30. -/
inductive InputDataType where
  | FLOAT
  | NATIVE
  | INVALID
deriving DecidableEq

/-- The datatypes of the external tensor ABI, spec section 6: 32/16-bit
floats, signed/unsigned 32/16/8-bit integers, 8/16-bit quantized
fixed-point with per-tensor scale and offset, boolean; UNDEFINED models an
unsupported datatype. -/
inductive Qnn_DataType_t where
  | FLOAT_32
  | FLOAT_16
  | INT_32
  | INT_16
  | INT_8
  | UINT_32
  | UINT_16
  | UINT_8
  | SFIXED_POINT_16
  | SFIXED_POINT_8
  | UFIXED_POINT_16
  | UFIXED_POINT_8
  | BOOL_8
  | UNDEFINED
deriving DecidableEq

/-- Byte size of one element of each supported datatype; none for an
unsupported datatype (spec: operations fail on an unsupported datatype). -/
def elementSize : Qnn_DataType_t → Option Nat
  | Qnn_DataType_t.FLOAT_32 => some 4
  | Qnn_DataType_t.FLOAT_16 => some 2
  | Qnn_DataType_t.INT_32 => some 4
  | Qnn_DataType_t.INT_16 => some 2
  | Qnn_DataType_t.INT_8 => some 1
  | Qnn_DataType_t.UINT_32 => some 4
  | Qnn_DataType_t.UINT_16 => some 2
  | Qnn_DataType_t.UINT_8 => some 1
  | Qnn_DataType_t.SFIXED_POINT_16 => some 2
  | Qnn_DataType_t.SFIXED_POINT_8 => some 1
  | Qnn_DataType_t.UFIXED_POINT_16 => some 2
  | Qnn_DataType_t.UFIXED_POINT_8 => some 1
  | Qnn_DataType_t.BOOL_8 => some 1
  | Qnn_DataType_t.UNDEFINED => none

/-- The static part of a tensor descriptor (spec section 3): rank,
dimension array, element datatype. -/
structure TensorInfo where
  name : String
  rank : Nat
  dims : List Nat
  dataType : Qnn_DataType_t
deriving DecidableEq

/-- A tensor descriptor: its static info plus the raw data pointer
(clientBuf); none models a null pointer, some a buffer given by its byte
contents. -/
structure Qnn_Tensor_t where
  info : TensorInfo
  clientBuf : Option (List Nat)
deriving DecidableEq

/-- GraphInfo_t (externally owned, spec section 3): the lists of input and
output tensor descriptors of one compiled graph. -/
structure GraphInfo_t where
  graphName : String
  inputTensors : List TensorInfo
  outputTensors : List TensorInfo
deriving DecidableEq

/-- The byte size implied by a descriptor: product of its declared
dimensions times its element size; none when the datatype is
unsupported. -/
def tensorByteSize (info : TensorInfo) : Option Nat :=
  (elementSize info.dataType).map (fun es => info.dims.prod * es)

/-- A well-formed tensor descriptor: nonzero rank and a supported
datatype (spec: setup fails on zero rank or unsupported datatype). -/
def validTensorInfo (info : TensorInfo) : Prop :=
  info.rank ≠ 0 ∧ (elementSize info.dataType).isSome = true

instance (info : TensorInfo) : Decidable (validTensorInfo info) := by
  unfold validTensorInfo
  infer_instance

/-- PopulateInputTensorsRetType_t from the unnamed header, line 35:
std::tuple of StatusCode, size_t, size_t. -/
abbrev PopulateInputTensorsRetType_t : Type := StatusCode × Nat × Nat

/-- The member fields of class IOTensor in
src/libQNNHelper/src/Utils/IOTensor.hpp, lines 74-75: the only data
members are the two scalars m_batchSize and m_numFilesPopulated. -/
structure IOTensorState where
  m_batchSize : Nat
  m_numFilesPopulated : Nat
deriving DecidableEq

/-- The inline constructor IOTensor() : m_batchSize(1),
m_numFilesPopulated(0) from IOTensor.hpp line 37. -/
def IOTensorState.ctor : IOTensorState :=
  { m_batchSize := 1, m_numFilesPopulated := 0 }

/-- Modelled from the spec: IOTensor.cpp is absent from src/ (only the
class declaration is present). tearDownTensors frees every owned buffer
and nulls each descriptor data pointer. -/
def tearDownTensors (tensors : List Qnn_Tensor_t) : StatusCode × List Qnn_Tensor_t :=
  (StatusCode.SUCCESS, tensors.map (fun t => { t with clientBuf := none }))

/-- Modelled from the spec: IOTensor.cpp is absent from src/. setupTensors
allocates one buffer per descriptor, sized from its dimensions and
datatype; failing fast on a malformed descriptor (zero rank, unsupported
datatype) or a failed allocation, tearing down the tensors allocated so
far in the call before returning FAILURE. allocOk models the heap: whether
the k-th allocation of the call succeeds. -/
def setupTensorsAux (allocOk : Nat → Bool) : Nat → List TensorInfo → StatusCode × List Qnn_Tensor_t
  | _, [] => (StatusCode.SUCCESS, [])
  | k, info :: rest =>
    match tensorByteSize info with
    | none => (StatusCode.FAILURE, [])
    | some sz =>
      if info.rank = 0 then (StatusCode.FAILURE, [])
      else if allocOk k = false then (StatusCode.FAILURE, [])
      else
        let t : Qnn_Tensor_t := { info := info, clientBuf := some (List.replicate sz 0) }
        let r := setupTensorsAux allocOk (k + 1) rest
        if r.1 = StatusCode.FAILURE then (StatusCode.FAILURE, (tearDownTensors (t :: r.2)).2)
        else (StatusCode.SUCCESS, t :: r.2)

/-- Modelled from the spec: IOTensor.cpp is absent from src/.
setupInputAndOutputTensors allocates one buffer per declared input and
output tensor of the graph; on failure, all tensors allocated so far in
this call are torn down before returning. -/
def setupInputAndOutputTensors (allocOk : Nat → Bool) (graphInfo : GraphInfo_t) :
    StatusCode × List Qnn_Tensor_t × List Qnn_Tensor_t :=
  let rin := setupTensorsAux allocOk 0 graphInfo.inputTensors
  if rin.1 = StatusCode.FAILURE then (StatusCode.FAILURE, rin.2, [])
  else
    let rout := setupTensorsAux allocOk graphInfo.inputTensors.length graphInfo.outputTensors
    if rout.1 = StatusCode.FAILURE then (StatusCode.FAILURE, (tearDownTensors rin.2).2, rout.2)
    else (StatusCode.SUCCESS, rin.2, rout.2)

/-- Modelled from the spec: IOTensor.cpp is absent from src/.
tearDownInputAndOutputTensors frees every owned buffer and nulls the
descriptors of both lists. -/
def tearDownInputAndOutputTensors (inputs outputs : List Qnn_Tensor_t) :
    StatusCode × List Qnn_Tensor_t × List Qnn_Tensor_t :=
  (StatusCode.SUCCESS, (tearDownTensors inputs).2, (tearDownTensors outputs).2)

/-- Modelled from the spec: IOTensor.cpp is absent from src/. Resolves the
position of the next file in a path list: in range it is used as is; past
the end, it wraps to the start (index modulo length) when loopBackToStart
is set, and the lookup fails otherwise. -/
def resolvePathIndex (loopBackToStart : Bool) (len idx : Nat) : Option Nat :=
  if idx < len then some idx
  else if loopBackToStart then
    if 0 < len then some (idx % len) else none
  else none

/-- Modelled from the spec: IOTensor.cpp is absent from src/. Reads n
files of fileSize bytes each from the path list, starting at offset and
advancing by one per file, wrapping via resolvePathIndex; fs models the
file system (path to byte contents, none when the file cannot be opened).
Fails when a lookup fails, a file cannot be opened, or a file has the
wrong size. -/
def readInputFiles (fs : String → Option (List Nat)) (filePaths : List String)
    (loopBackToStart : Bool) (fileSize : Nat) : Nat → Nat → Option (List (List Nat))
  | _, 0 => some []
  | offset, n + 1 =>
    match resolvePathIndex loopBackToStart filePaths.length offset with
    | none => none
    | some i =>
      match filePaths.get? i with
      | none => none
      | some p =>
        match fs p with
        | none => none
        | some data =>
          if data.length = fileSize then
            match readInputFiles fs filePaths loopBackToStart fileSize (offset + 1) n with
            | none => none
            | some rest => some (data :: rest)
          else none

/-- Modelled from the spec: IOTensor.cpp is absent from src/. The byte
size of the first file the populate loop would read, used to determine
how many files one tensor consumes (batch chunking is file-count-based). -/
def firstFileSize (fs : String → Option (List Nat)) (filePaths : List String)
    (loopBackToStart : Bool) (offset : Nat) : Option Nat :=
  match resolvePathIndex loopBackToStart filePaths.length offset with
  | none => none
  | some i =>
    match filePaths.get? i with
    | none => none
    | some p => (fs p).map List.length

/-- Modelled from the spec: IOTensor.cpp is absent from src/. Fills one
input tensor from its path list starting at filePathsIndexOffset, reading
total bytes equal to the tensor buffer capacity; when the batch dimension
exceeds what one file provides, reads multiple files to fill it. Returns
the (status, filesConsumedCount, batchSize) triple together with the
updated tensor. -/
def populateInputTensor (fs : String → Option (List Nat)) (filePaths : List String)
    (filePathsIndexOffset : Nat) (loopBackToStart : Bool) (input : Qnn_Tensor_t) :
    PopulateInputTensorsRetType_t × Qnn_Tensor_t :=
  match tensorByteSize input.info with
  | none => ((StatusCode.FAILURE, 0, 0), input)
  | some capacity =>
    match firstFileSize fs filePaths loopBackToStart filePathsIndexOffset with
    | none => ((StatusCode.FAILURE, 0, 0), input)
    | some fsz =>
      if fsz = 0 then ((StatusCode.FAILURE, 0, 0), input)
      else if capacity % fsz = 0 then
        match readInputFiles fs filePaths loopBackToStart fsz filePathsIndexOffset (capacity / fsz) with
        | none => ((StatusCode.FAILURE, 0, 0), input)
        | some chunks =>
          ((StatusCode.SUCCESS, capacity / fsz, capacity / fsz),
            { input with clientBuf := some chunks.flatten })
      else ((StatusCode.FAILURE, 0, 0), input)

/-- Modelled from the spec: IOTensor.cpp is absent from src/. The
file-based populateInputTensors of the unnamed header (lines 56-64): fills
each input tensor from its own path list; on any per-tensor failure the
whole call reports FAILURE. The filesConsumedCount and batchSize of the
returned triple are those determined for the first input tensor. -/
def populateInputTensors (fs : String → Option (List Nat))
    (filePathsVector : List (List String)) (filePathsIndexOffset : Nat)
    (loopBackToStart : Bool) (inputs : List Qnn_Tensor_t) :
    PopulateInputTensorsRetType_t × List Qnn_Tensor_t :=
  let results := (List.zip filePathsVector inputs).map
    (fun pr => populateInputTensor fs pr.1 filePathsIndexOffset loopBackToStart pr.2)
  match results.head? with
  | none => ((StatusCode.SUCCESS, 0, 0), inputs)
  | some r0 =>
    if results.all (fun r => r.1.1 = StatusCode.SUCCESS) then
      ((StatusCode.SUCCESS, r0.1.2.1, r0.1.2.2), results.map Prod.snd)
    else ((StatusCode.FAILURE, 0, 0), inputs)

/-- Modelled from the spec: IOTensor.cpp is absent from src/. The
memory-buffer overload of populateInputTensor (uint8_t* buffer): copies an
already-resident buffer into the tensor; its return value is a bare
StatusCode. -/
def populateInputTensorFromBuffer (buffer : List Nat) (input : Qnn_Tensor_t) :
    StatusCode × Qnn_Tensor_t :=
  match tensorByteSize input.info with
  | none => (StatusCode.FAILURE, input)
  | some capacity =>
    if buffer.length = capacity then
      (StatusCode.SUCCESS, { input with clientBuf := some buffer })
    else (StatusCode.FAILURE, input)

/-- Modelled from the spec: IOTensor.cpp is absent from src/. The
memory-buffer-based populateInputTensors overload (unnamed header lines
67-71): same semantics as the file-based path but sourcing from
already-resident memory buffers; its declared return type is a bare
StatusCode, not the triple. -/
def populateInputTensorsFromBuffers (inputBuffers : List (List Nat))
    (inputs : List Qnn_Tensor_t) : StatusCode × List Qnn_Tensor_t :=
  let results := (List.zip inputBuffers inputs).map
    (fun pr => populateInputTensorFromBuffer pr.1 pr.2)
  if results.all (fun r => r.1 = StatusCode.SUCCESS) then
    (StatusCode.SUCCESS, results.map Prod.snd)
  else (StatusCode.FAILURE, inputs)

/-- Modelled from the spec: IOTensor.cpp is absent from src/. The
file-based populateInputTensors of IOTensor.hpp (lines 52-56) mutates the
two member scalars of the instance: the determined batch size is stored in
m_batchSize and the files consumed are added to m_numFilesPopulated. -/
def populateInputTensorsStateful (st : IOTensorState) (fs : String → Option (List Nat))
    (filePathsVector : List (List String)) (filePathsIndexOffset : Nat)
    (loopBackToStart : Bool) (inputs : List Qnn_Tensor_t) :
    (StatusCode × List Qnn_Tensor_t) × IOTensorState :=
  let r := populateInputTensors fs filePathsVector filePathsIndexOffset loopBackToStart inputs
  ((r.1.1, r.2),
    { m_batchSize := r.1.2.2, m_numFilesPopulated := st.m_numFilesPopulated + r.1.2.1 })

/-- Per-tensor quantization parameters of the external ABI (spec sections
3 and 6): per-tensor scale and offset. The float scale is modelled as an
exact rational. -/
structure Qnn_QuantizeParams_t where
  scale : ℚ
  offset : ℤ
deriving DecidableEq

/-- Modelled from the spec: IOTensor.cpp is absent from src/.
convertToFloat dequantizes one tensor buffer of raw values into a newly
allocated floating-point array: each raw value v becomes (v + offset) *
scale; the float computation is modelled exactly over the rationals. -/
def convertToFloat (q : Qnn_QuantizeParams_t) (rawBuffer : List ℤ) : List ℚ :=
  rawBuffer.map (fun (v : ℤ) => ((v : ℚ) + (q.offset : ℚ)) * q.scale)

/-- Modelled from the spec: IOTensor.cpp is absent from src/. fillDims
copies a raw dimension array (a pointer, none when null) of the given rank
into the sequence-of-size_t representation; the only failure is a null
input pointer. -/
def fillDims (inDimensions : Option (Nat → Nat)) (rank : Nat) : StatusCode × List Nat :=
  match inDimensions with
  | none => (StatusCode.FAILURE, [])
  | some mem => (StatusCode.SUCCESS, (List.range rank).map mem)

/-- Re-expansion of a filled dimension sequence back into a raw dimension
array, read through its indices. -/
def expandDims (dims : List Nat) : Nat → Nat :=
  fun i => dims.getD i 0

/-- Modelled from the spec: IOTensor.cpp is absent from src/. The
deterministic output path of one written file, composed from outputPath,
graphName, the iteration index and the tensor name; the float and native
variants carry distinct suffixes. -/
def outputFilePath (outputPath graphName tensorName : String) (iter : Nat)
    (suffix : String) : String :=
  outputPath ++ "/" ++ graphName ++ "/Result_" ++ toString iter ++ "/" ++ tensorName ++ suffix

/-- Modelled from the spec: IOTensor.cpp is absent from src/.
writeOutputTensor writes one output tensor for one iteration: under
FLOAT_ONLY the dequantized float file, under NATIVE_ONLY the native-bytes
file, under FLOAT_AND_NATIVE both as separate files; INVALID fails with
nothing written. Returns the list of files written. -/
def writeOutputTensor (outputDatatype : OutputDataType)
    (outputPath graphName tensorName : String) (iter : Nat) : StatusCode × List String :=
  match outputDatatype with
  | OutputDataType.FLOAT_ONLY =>
    (StatusCode.SUCCESS, [outputFilePath outputPath graphName tensorName iter ".raw"])
  | OutputDataType.NATIVE_ONLY =>
    (StatusCode.SUCCESS, [outputFilePath outputPath graphName tensorName iter "_native.raw"])
  | OutputDataType.FLOAT_AND_NATIVE =>
    (StatusCode.SUCCESS,
      [outputFilePath outputPath graphName tensorName iter ".raw",
       outputFilePath outputPath graphName tensorName iter "_native.raw"])
  | OutputDataType.INVALID => (StatusCode.FAILURE, [])

/-- Modelled from the spec: IOTensor.cpp is absent from src/.
writeOutputTensors writes every output tensor of one iteration according
to the outputDatatype policy; returns, per output tensor, the list of
files written for it. -/
def writeOutputTensors (outputDatatype : OutputDataType)
    (outputPath graphName : String) (iter : Nat) (tensorNames : List String) :
    StatusCode × List (List String) :=
  if outputDatatype = OutputDataType.INVALID then (StatusCode.FAILURE, [])
  else
    (StatusCode.SUCCESS,
      tensorNames.map (fun nm => (writeOutputTensor outputDatatype outputPath graphName nm iter).2))

/-- The buffer invariant of spec section 3: the descriptor holds a
non-null buffer whose byte size equals the product of its declared
dimensions times its element size. -/
def goodTensor (t : Qnn_Tensor_t) : Prop :=
  ∃ buf es, t.clientBuf = some buf ∧ elementSize t.info.dataType = some es ∧
    buf.length = t.info.dims.prod * es

/-- An example graph with one well-formed input and one well-formed
output descriptor. -/
def exGraph : GraphInfo_t :=
  { graphName := "graph0",
    inputTensors :=
      [{ name := "in0", rank := 3, dims := [2, 3, 4], dataType := Qnn_DataType_t.FLOAT_32 }],
    outputTensors :=
      [{ name := "out0", rank := 1, dims := [5], dataType := Qnn_DataType_t.UINT_8 }] }

/-- An example graph whose single input descriptor is malformed (zero
rank), so setup fails. -/
def badGraph : GraphInfo_t :=
  { graphName := "graph1",
    inputTensors :=
      [{ name := "in0", rank := 0, dims := [], dataType := Qnn_DataType_t.FLOAT_32 }],
    outputTensors := [] }

/-- An example input tensor descriptor of three unsigned bytes. -/
def exInput : Qnn_Tensor_t :=
  { info := { name := "in0", rank := 1, dims := [3], dataType := Qnn_DataType_t.UINT_8 },
    clientBuf := none }

/-- An example one-file file system: the single path holds one byte. -/
def exFs : String → Option (List Nat) :=
  fun q => if q = "f0" then some [7] else none

/-! Theorems. -/

theorem mem_tearDownTensors_clientBuf {ts : List Qnn_Tensor_t} {t : Qnn_Tensor_t}
    (h : t ∈ (tearDownTensors ts).2) : t.clientBuf = none := by
  simp only [tearDownTensors, List.mem_map] at h
  obtain ⟨u, _, rfl⟩ := h
  rfl

/-- Claim C9: a freshly constructed IOTensor instance starts with its
batch size equal to 1 and its count of files already populated equal to 0,
before any populate or setup call is made. -/
theorem ctor_initial_state :
    IOTensorState.ctor.m_batchSize = 1 ∧ IOTensorState.ctor.m_numFilesPopulated = 0 :=
  ⟨rfl, rfl⟩

/-- Claim C4: the only mutable state of a helper instance that persists
across sequential calls is the two scalar fields m_batchSize and
m_numFilesPopulated: a state of the instance is fully determined by those
two scalars, and the stateful populate call yields a state built from
exactly those two fields. -/
theorem instance_state_is_two_scalars :
    (∀ s t : IOTensorState, s.m_batchSize = t.m_batchSize →
      s.m_numFilesPopulated = t.m_numFilesPopulated → s = t) ∧
    (∀ (st : IOTensorState) (fs : String → Option (List Nat))
        (fpv : List (List String)) (off : Nat) (lb : Bool)
        (ins : List Qnn_Tensor_t), ∃ b n,
      (populateInputTensorsStateful st fs fpv off lb ins).2 = IOTensorState.mk b n) := by
  constructor
  · intro s t h1 h2
    cases s
    cases t
    simp_all
  · intro st fs fpv off lb ins
    exact ⟨_, _, rfl⟩

theorem instance_state_is_two_scalars_witness :
    IOTensorState.mk 4 7 = IOTensorState.mk 4 7 ∧ 0 < 1 :=
  ⟨instance_state_is_two_scalars.1 (IOTensorState.mk 4 7) (IOTensorState.mk 4 7) rfl rfl,
    Nat.zero_lt_one⟩

/-- Claim C6: convertToFloat on a quantized tensor with per-tensor scale s
and offset o returns a floating-point array with one element per raw
value, in which the element for raw value v equals (v + o) * s. -/
theorem convertToFloat_dequantizes (q : Qnn_QuantizeParams_t) (rawBuffer : List ℤ) :
    (convertToFloat q rawBuffer).length = rawBuffer.length ∧
    ∀ i : Nat, (convertToFloat q rawBuffer)[i]? =
      (rawBuffer[i]?).map (fun (v : ℤ) => ((v : ℚ) + (q.offset : ℚ)) * q.scale) := by
  refine ⟨by simp only [convertToFloat, List.length_map], fun i => ?_⟩
  simp only [convertToFloat, List.getElem?_map]

/-- Claim C7: for every rank at least 1, fillDims on a non-null raw
dimension array succeeds and its result, re-expanded into a raw dimension
array, reproduces the original entries exactly; on a null input pointer it
fails, and that is the only failure condition. -/
theorem fillDims_roundTrip (rank : Nat) (_hrank : 1 ≤ rank) (mem : Nat → Nat) :
    (fillDims (some mem) rank).1 = StatusCode.SUCCESS ∧
    (∀ i, i < rank → expandDims (fillDims (some mem) rank).2 i = mem i) ∧
    (fillDims none rank).1 = StatusCode.FAILURE := by
  refine ⟨rfl, fun i hi => ?_, rfl⟩
  simp [fillDims, expandDims, List.getD, List.getElem?_map, List.getElem?_range hi]

theorem fillDims_roundTrip_witness :
    (fillDims (some (fun i => i + 2)) 3).1 = StatusCode.SUCCESS ∧
    (∀ i, i < 3 → expandDims (fillDims (some (fun i => i + 2)) 3).2 i = i + 2) ∧
    (fillDims none 3).1 = StatusCode.FAILURE :=
  fillDims_roundTrip 3 (by decide) (fun i => i + 2)

theorem map_length_eq_replicate {α : Type} (l : List α) (f : α → List String) (n : Nat)
    (h : ∀ x, (f x).length = n) :
    List.map List.length (l.map f) = List.replicate l.length n := by
  induction l with
  | nil => rfl
  | cons a l ih => simp [ih, h, List.replicate_succ]

/-- Claim C8: a successful writeOutputTensors call with outputDatatype =
FLOAT_AND_NATIVE creates exactly two output files for every output tensor
in that iteration, and with FLOAT_ONLY or NATIVE_ONLY exactly one. -/
theorem writeOutputTensors_fileCounts (outputPath graphName : String) (iter : Nat)
    (tensorNames : List String) :
    ((writeOutputTensors OutputDataType.FLOAT_AND_NATIVE outputPath graphName iter
        tensorNames).1 = StatusCode.SUCCESS ∧
      (writeOutputTensors OutputDataType.FLOAT_AND_NATIVE outputPath graphName iter
        tensorNames).2.map List.length = List.replicate tensorNames.length 2) ∧
    ((writeOutputTensors OutputDataType.FLOAT_ONLY outputPath graphName iter
        tensorNames).1 = StatusCode.SUCCESS ∧
      (writeOutputTensors OutputDataType.FLOAT_ONLY outputPath graphName iter
        tensorNames).2.map List.length = List.replicate tensorNames.length 1) ∧
    ((writeOutputTensors OutputDataType.NATIVE_ONLY outputPath graphName iter
        tensorNames).1 = StatusCode.SUCCESS ∧
      (writeOutputTensors OutputDataType.NATIVE_ONLY outputPath graphName iter
        tensorNames).2.map List.length = List.replicate tensorNames.length 1) := by
  refine ⟨⟨rfl, ?_⟩, ⟨rfl, ?_⟩, ⟨rfl, ?_⟩⟩ <;>
    exact map_length_eq_replicate _ _ _ (fun x => rfl)

/-- Claim C10: the memory-buffer-based populateInputTensors overload
returns only a two-valued status, so a caller using the memory-buffer fast
path cannot observe a files-consumed count or batch size from the return
value: any readout of the triple through a StatusCode must identify two
triples with different files-consumed counts. -/
theorem populateFromBuffers_status_only :
    (∀ (inputBuffers : List (List Nat)) (inputs : List Qnn_Tensor_t),
      (populateInputTensorsFromBuffers inputBuffers inputs).1 = StatusCode.SUCCESS ∨
      (populateInputTensorsFromBuffers inputBuffers inputs).1 = StatusCode.FAILURE) ∧
    (∀ f : PopulateInputTensorsRetType_t → StatusCode,
      ∃ x y : PopulateInputTensorsRetType_t, x.2.1 < y.2.1 ∧ f x = f y) := by
  constructor
  · intro inputBuffers inputs
    cases h : (populateInputTensorsFromBuffers inputBuffers inputs).1
    · exact Or.inl rfl
    · exact Or.inr rfl
  · intro f
    rcases h0 : f (StatusCode.SUCCESS, 0, 0) with _ | _ <;>
      rcases h1 : f (StatusCode.SUCCESS, 1, 0) with _ | _ <;>
        rcases h2 : f (StatusCode.SUCCESS, 2, 0) with _ | _ <;>
          first
            | exact ⟨(StatusCode.SUCCESS, 0, 0), (StatusCode.SUCCESS, 1, 0),
                by decide, h0.trans h1.symm⟩
            | exact ⟨(StatusCode.SUCCESS, 0, 0), (StatusCode.SUCCESS, 2, 0),
                by decide, h0.trans h2.symm⟩
            | exact ⟨(StatusCode.SUCCESS, 1, 0), (StatusCode.SUCCESS, 2, 0),
                by decide, h1.trans h2.symm⟩

/-- Claim C3: the file-based populateInputTensors operation returns a
triple of a two-valued status, the count of input files consumed and the
batch size it determined, for every invocation. -/
theorem populateInputTensors_returns_triple (fs : String → Option (List Nat))
    (filePathsVector : List (List String)) (filePathsIndexOffset : Nat)
    (loopBackToStart : Bool) (inputs : List Qnn_Tensor_t) :
    ∃ (s : StatusCode) (filesConsumedCount batchSize : Nat),
      (populateInputTensors fs filePathsVector filePathsIndexOffset loopBackToStart
        inputs).1 = (s, filesConsumedCount, batchSize) ∧
      (s = StatusCode.SUCCESS ∨ s = StatusCode.FAILURE) := by
  refine ⟨(populateInputTensors fs filePathsVector filePathsIndexOffset loopBackToStart
      inputs).1.1,
    (populateInputTensors fs filePathsVector filePathsIndexOffset loopBackToStart
      inputs).1.2.1,
    (populateInputTensors fs filePathsVector filePathsIndexOffset loopBackToStart
      inputs).1.2.2, rfl, ?_⟩
  cases h : (populateInputTensors fs filePathsVector filePathsIndexOffset loopBackToStart
      inputs).1.1
  · exact Or.inl rfl
  · exact Or.inr rfl

theorem setupTensorsAux_failure_null (allocOk : Nat → Bool) (k : Nat)
    (infos : List TensorInfo)
    (hfail : (setupTensorsAux allocOk k infos).1 = StatusCode.FAILURE) :
    ∀ t ∈ (setupTensorsAux allocOk k infos).2, t.clientBuf = none := by
  cases infos with
  | nil => simp [setupTensorsAux] at hfail
  | cons info rest =>
    intro t ht
    rcases hbs : tensorByteSize info with _ | sz
    · simp only [setupTensorsAux, hbs] at ht
      simp at ht
    · by_cases hr : info.rank = 0
      · simp only [setupTensorsAux, hbs, if_pos hr] at ht
        simp at ht
      · by_cases ha : allocOk k = false
        · simp only [setupTensorsAux, hbs, if_neg hr, if_pos ha] at ht
          simp at ht
        · rcases hrec : (setupTensorsAux allocOk (k + 1) rest).1 with _ | _
          · exfalso
            simp only [setupTensorsAux, hbs, if_neg hr, if_neg ha, hrec] at hfail
            simp at hfail
          · simp only [setupTensorsAux, hbs, if_neg hr, if_neg ha, hrec,
              if_pos rfl] at ht
            exact mem_tearDownTensors_clientBuf ht

theorem setupTensorsAux_success (allocOk : Nat → Bool) (hA : ∀ k, allocOk k = true) :
    ∀ (infos : List TensorInfo), (∀ i ∈ infos, validTensorInfo i) →
      ∀ k, (setupTensorsAux allocOk k infos).1 = StatusCode.SUCCESS ∧
        ∀ t ∈ (setupTensorsAux allocOk k infos).2, goodTensor t := by
  intro infos
  induction infos with
  | nil =>
    intro _ k
    simp [setupTensorsAux]
  | cons info rest ih =>
    intro hv k
    obtain ⟨hr0, hes⟩ := hv info (List.mem_cons_self info rest)
    obtain ⟨es, hes2⟩ := Option.isSome_iff_exists.mp hes
    have hbs : tensorByteSize info = some (info.dims.prod * es) := by
      simp [tensorByteSize, hes2]
    have ha : ¬ allocOk k = false := by simp [hA k]
    obtain ⟨hrs, hrg⟩ := ih (fun i hi => hv i (List.mem_cons_of_mem info hi)) (k + 1)
    have hne : ¬ (setupTensorsAux allocOk (k + 1) rest).1 = StatusCode.FAILURE := by
      simp [hrs]
    constructor
    · simp only [setupTensorsAux, hbs, if_neg hr0, if_neg ha, if_neg hne]
    · intro t ht
      simp only [setupTensorsAux, hbs, if_neg hr0, if_neg ha, if_neg hne,
        List.mem_cons] at ht
      rcases ht with rfl | ht
      · exact ⟨List.replicate (info.dims.prod * es) 0, es, rfl, hes2, by simp⟩
      · exact hrg t ht

/-- Claim C1: for every valid graph descriptor (with every allocation
succeeding), every tensor descriptor returned by
setupInputAndOutputTensors has a non-null buffer whose byte size equals
the product of its declared dimensions times its element size, and a
subsequent tearDownInputAndOutputTensors on those inputs and outputs sets
every descriptor data pointer to null, leaving no buffer allocated. -/
theorem setup_allocates_teardown_nulls (allocOk : Nat → Bool)
    (graphInfo : GraphInfo_t)
    (hA : ∀ k, allocOk k = true)
    (hin : ∀ i ∈ graphInfo.inputTensors, validTensorInfo i)
    (hout : ∀ i ∈ graphInfo.outputTensors, validTensorInfo i) :
    (setupInputAndOutputTensors allocOk graphInfo).1 = StatusCode.SUCCESS ∧
    (∀ t ∈ (setupInputAndOutputTensors allocOk graphInfo).2.1, goodTensor t) ∧
    (∀ t ∈ (setupInputAndOutputTensors allocOk graphInfo).2.2, goodTensor t) ∧
    (∀ t ∈ (tearDownInputAndOutputTensors
        (setupInputAndOutputTensors allocOk graphInfo).2.1
        (setupInputAndOutputTensors allocOk graphInfo).2.2).2.1,
      t.clientBuf = none) ∧
    (∀ t ∈ (tearDownInputAndOutputTensors
        (setupInputAndOutputTensors allocOk graphInfo).2.1
        (setupInputAndOutputTensors allocOk graphInfo).2.2).2.2,
      t.clientBuf = none) := by
  obtain ⟨hs1, hg1⟩ :=
    setupTensorsAux_success allocOk hA graphInfo.inputTensors hin 0
  obtain ⟨hs2, hg2⟩ :=
    setupTensorsAux_success allocOk hA graphInfo.outputTensors hout
      graphInfo.inputTensors.length
  have hne1 : ¬ (setupTensorsAux allocOk 0 graphInfo.inputTensors).1
      = StatusCode.FAILURE := by simp [hs1]
  have hne2 : ¬ (setupTensorsAux allocOk graphInfo.inputTensors.length
      graphInfo.outputTensors).1 = StatusCode.FAILURE := by simp [hs2]
  refine ⟨?_, ?_, ?_, ?_, ?_⟩
  · simp only [setupInputAndOutputTensors, if_neg hne1, if_neg hne2]
  · intro t ht
    simp only [setupInputAndOutputTensors, if_neg hne1, if_neg hne2] at ht
    exact hg1 t ht
  · intro t ht
    simp only [setupInputAndOutputTensors, if_neg hne1, if_neg hne2] at ht
    exact hg2 t ht
  · intro t ht
    simp only [tearDownInputAndOutputTensors] at ht
    exact mem_tearDownTensors_clientBuf ht
  · intro t ht
    simp only [tearDownInputAndOutputTensors] at ht
    exact mem_tearDownTensors_clientBuf ht

theorem setup_allocates_teardown_nulls_witness :
    (setupInputAndOutputTensors (fun _ => true) exGraph).1 = StatusCode.SUCCESS ∧
    (∀ t ∈ (setupInputAndOutputTensors (fun _ => true) exGraph).2.1, goodTensor t) ∧
    (∀ t ∈ (setupInputAndOutputTensors (fun _ => true) exGraph).2.2, goodTensor t) ∧
    (∀ t ∈ (tearDownInputAndOutputTensors
        (setupInputAndOutputTensors (fun _ => true) exGraph).2.1
        (setupInputAndOutputTensors (fun _ => true) exGraph).2.2).2.1,
      t.clientBuf = none) ∧
    (∀ t ∈ (tearDownInputAndOutputTensors
        (setupInputAndOutputTensors (fun _ => true) exGraph).2.1
        (setupInputAndOutputTensors (fun _ => true) exGraph).2.2).2.2,
      t.clientBuf = none) :=
  setup_allocates_teardown_nulls (fun _ => true) exGraph (fun _ => rfl)
    (by decide) (by decide)

/-- Claim C2: if setupInputAndOutputTensors fails partway, every tensor
buffer it had already allocated within that call is torn down before it
returns FAILURE, so a failed call leaves no buffer allocated. -/
theorem setup_failure_is_atomic (allocOk : Nat → Bool) (graphInfo : GraphInfo_t)
    (hfail : (setupInputAndOutputTensors allocOk graphInfo).1 = StatusCode.FAILURE) :
    (∀ t ∈ (setupInputAndOutputTensors allocOk graphInfo).2.1, t.clientBuf = none) ∧
    (∀ t ∈ (setupInputAndOutputTensors allocOk graphInfo).2.2, t.clientBuf = none) := by
  rcases h1 : (setupTensorsAux allocOk 0 graphInfo.inputTensors).1 with _ | _
  · have hne1 : ¬ (setupTensorsAux allocOk 0 graphInfo.inputTensors).1
        = StatusCode.FAILURE := by simp [h1]
    rcases h2 : (setupTensorsAux allocOk graphInfo.inputTensors.length
        graphInfo.outputTensors).1 with _ | _
    · exfalso
      have hne2 : ¬ (setupTensorsAux allocOk graphInfo.inputTensors.length
          graphInfo.outputTensors).1 = StatusCode.FAILURE := by simp [h2]
      simp only [setupInputAndOutputTensors, if_neg hne1, if_neg hne2] at hfail
      simp at hfail
    · constructor
      · intro t ht
        simp only [setupInputAndOutputTensors, if_neg hne1, if_pos h2] at ht
        exact mem_tearDownTensors_clientBuf ht
      · intro t ht
        simp only [setupInputAndOutputTensors, if_neg hne1, if_pos h2] at ht
        exact setupTensorsAux_failure_null allocOk graphInfo.inputTensors.length
          graphInfo.outputTensors h2 t ht
  · constructor
    · intro t ht
      simp only [setupInputAndOutputTensors, if_pos h1] at ht
      exact setupTensorsAux_failure_null allocOk 0 graphInfo.inputTensors h1 t ht
    · intro t ht
      simp only [setupInputAndOutputTensors, if_pos h1] at ht
      simp at ht

theorem setup_failure_is_atomic_witness :
    (∀ t ∈ (setupInputAndOutputTensors (fun _ => true) badGraph).2.1,
      t.clientBuf = none) ∧
    (∀ t ∈ (setupInputAndOutputTensors (fun _ => true) badGraph).2.2,
      t.clientBuf = none) :=
  setup_failure_is_atomic (fun _ => true) badGraph (by decide)

theorem resolvePathIndex_singleton (idx : Nat) :
    resolvePathIndex true 1 idx = some 0 := by
  unfold resolvePathIndex
  by_cases h : idx < 1
  · simp [h, Nat.lt_one_iff.mp h]
  · simp [h, Nat.mod_one]

theorem readInputFiles_singleton (fs : String → Option (List Nat)) (p : String)
    (data : List Nat) (hfs : fs p = some data) :
    ∀ (n offset : Nat),
      readInputFiles fs [p] true data.length offset n
        = some (List.replicate n data) := by
  intro n
  induction n with
  | zero =>
    intro offset
    simp [readInputFiles]
  | succ m ih =>
    intro offset
    rw [readInputFiles]
    simp [resolvePathIndex_singleton, hfs, ih (offset + 1), List.replicate_succ]

/-- Claim C5: populating an input tensor with loopBackToStart = true and a
single-element file path list never fails from list exhaustion, whatever
the starting offset and however many files the batch needs: the path index
wraps to 0 whenever the list is exhausted, so every read consumes the same
(index 0) file, and the buffer is that file repeated. -/
theorem populate_loopBack_singleton (fs : String → Option (List Nat)) (p : String)
    (data : List Nat) (offset : Nat) (input : Qnn_Tensor_t) (capacity : Nat)
    (hfs : fs p = some data)
    (hcap : tensorByteSize input.info = some capacity)
    (hpos : 0 < data.length)
    (hdvd : data.length ∣ capacity) :
    populateInputTensor fs [p] offset true input =
      ((StatusCode.SUCCESS, capacity / data.length, capacity / data.length),
        Qnn_Tensor_t.mk input.info
          (some (List.replicate (capacity / data.length) data).flatten)) := by
  have hfirst : firstFileSize fs [p] true offset = some data.length := by
    unfold firstFileSize
    simp [resolvePathIndex_singleton, hfs]
  have hmod : capacity % data.length = 0 := Nat.mod_eq_zero_of_dvd hdvd
  simp [populateInputTensor, hcap, hfirst, hpos.ne', hmod,
    readInputFiles_singleton fs p data hfs]

theorem populate_loopBack_singleton_witness :
    populateInputTensor exFs ["f0"] 5 true exInput =
      ((StatusCode.SUCCESS, 3 / 1, 3 / 1),
        Qnn_Tensor_t.mk exInput.info (some (List.replicate (3 / 1) [7]).flatten)) :=
  populate_loopBack_singleton exFs "f0" [7] 5 exInput 3 (by decide) (by decide)
    (by decide) (one_dvd 3)

end iotensor
end tools
end qnn
